import Mathlib

/-!
Verification of the x-scheduler core (src/app/services/scheduler.py,
src/app/services/x_api.py, src/app/models/post.py) by a shallow embedding.

Modelling conventions:
* Python `dict`s become association lists with unique-key update semantics
  (`lookupKey` / `insertKey` / `removeKey`).
* The APScheduler job store (`MemoryJobStore` + `add_job` with
  `replace_existing=True` and `remove_job`) becomes a list of
  (job id, run date) pairs; `add_job` removes any job with the same id and
  appends the new one; `remove_job` on an absent id raises `JobLookupError`,
  modelled by returning `none`.
* The external publisher (tweepy `create_tweet`, including media handling)
  is abstracted into an oracle `pub : XPost → Option String`: `some xid`
  models a response carrying a remote id `xid`, `none` models any failing
  or malformed call (exception paths inside `publish_post` and the thread
  loop all collapse to this, exactly as in the source, where they are
  caught and reported as `None` / `return False`).
* `datetime` values are modelled as integers (only equality/ordering of
  fire dates matters to the verified operations); fields of the pydantic
  models that no verified operation reads (timezone, media_urls, titles,
  created_at, updated_at, thread_id) are omitted from the record.
* A Python attribute access `PostStatus.X` on the enum is modelled by the
  total lookup function `PostStatus.lookup "X"`: it returns `some` status
  for the four defined members and `none` (an `AttributeError`) otherwise.
  The source's `cancel_post` / `cancel_thread` access `PostStatus.CANCELLED`,
  which is **not** a member of the enum in src/app/models/post.py.
-/

/-- The status enumeration of src/app/models/post.py. It has exactly four
members: PENDING, SCHEDULED, PUBLISHED, FAILED — there is no CANCELLED. -/
inductive PostStatus where
  | pending
  | scheduled
  | published
  | failed
deriving DecidableEq, Repr

/-- Python attribute lookup `PostStatus.<name>`: `some` for the defined
members, `none` (AttributeError) for anything else, in particular for
"CANCELLED". -/
def PostStatus.lookup : String → Option PostStatus
  | "PENDING" => some .pending
  | "SCHEDULED" => some .scheduled
  | "PUBLISHED" => some .published
  | "FAILED" => some .failed
  | _ => none

/-- The XPost pydantic model (fields read by the verified operations). -/
structure XPost where
  id : Option String := none
  content : String
  scheduled_date : Int
  status : PostStatus := .pending
  thread_position : Option Int := none
  x_post_id : Option String := none
deriving DecidableEq, Repr

/-- The XThread pydantic model (fields read by the verified operations). -/
structure XThread where
  id : String
  posts : List XPost := []
  scheduled_date : Int
  status : PostStatus := .pending
deriving DecidableEq, Repr

/-- The `validate_content_length` pydantic validator on `XPost.content`:
rejects content longer than 280 characters, returns it unchanged otherwise. -/
def validate_content_length (v : String) : Except String String :=
  if v.length > 280 then
    Except.error "Content exceeds 280 characters"
  else
    Except.ok v

/-- Association-list lookup (Python `d[k]` / `d.get(k)` / `k in d`). -/
def lookupKey {κ α : Type} [DecidableEq κ] (k : κ) : List (κ × α) → Option α
  | [] => none
  | (k', v) :: rest => if k' = k then some v else lookupKey k rest

/-- Association-list update (Python `d[k] = v`): replace the entry for `k`
in place, or append a fresh one. -/
def insertKey {κ α : Type} [DecidableEq κ] (k : κ) (v : α) :
    List (κ × α) → List (κ × α)
  | [] => [(k, v)]
  | (k', v') :: rest =>
      if k' = k then (k, v) :: rest else (k', v') :: insertKey k v rest

/-- Remove every entry for key `k`. -/
def removeKey {κ α : Type} [DecidableEq κ] (k : κ) :
    List (κ × α) → List (κ × α)
  | [] => []
  | (k', v) :: rest =>
      if k' = k then removeKey k rest else (k', v) :: removeKey k rest

/-- Python `k in d`. -/
def hasKey {κ α : Type} [DecidableEq κ] (k : κ) (l : List (κ × α)) : Bool :=
  (lookupKey k l).isSome

/-- The APScheduler MemoryJobStore: pending (job id, run date) pairs. -/
abbrev JobStore := List (String × Int)

/-- `scheduler.add_job(..., id=jid, run_date=d, replace_existing=True)`:
books a trigger, replacing any pending trigger with the same job id. -/
def addJob (jobs : JobStore) (jid : String) (d : Int) : JobStore :=
  removeKey jid jobs ++ [(jid, d)]

/-- `scheduler.remove_job(jid)`: removes the pending trigger, or raises
`JobLookupError` (modelled as `none`) when no such job is pending — e.g.
when the job already fired (a "date" job is dropped after it runs). -/
def removeJob (jobs : JobStore) (jid : String) : Option JobStore :=
  if hasKey jid jobs then some (removeKey jid jobs) else none

/-- The mutable state of SchedulerService: the two registries, the job
store, the quota counter and its ceiling (settings.MAX_MONTHLY_POSTS). -/
structure SchedulerState where
  posts : List (String × XPost)
  threads : List (String × XThread)
  jobs : JobStore
  monthly_post_count : Int
  max_monthly_posts : Int
deriving DecidableEq, Repr

/-- Python truthiness of `post.id` (`if not post.id:`): falsy when the id
is None or the empty string. -/
def idFalsy : Option String → Bool
  | none => true
  | some s => s = ""

/-- The identifier under which `schedule_post` files the post: the post's
own id, or the fresh `str(uuid.uuid4())` when the id is falsy. -/
def effectiveId (post : XPost) (freshId : String) : String :=
  if idFalsy post.id then freshId else post.id.getD freshId

/-- `SchedulerService.schedule_post`. `freshId` stands for the
`str(uuid.uuid4())` drawn when the post carries no id; `bookOk` tells
whether `scheduler.add_job` succeeds or raises (the only statement of the
`try` block that can raise). Mirrors the source line by line:
quota guard first; then the post is stored in the registry *before* the
trigger is booked; status update and counter increment happen only after a
successful booking; an exception from `add_job` is caught and `False`
returned, with the registry entry already made. -/
def schedule_post (s : SchedulerState) (post : XPost) (freshId : String)
    (bookOk : Bool) : SchedulerState × Bool :=
  if s.monthly_post_count ≥ s.max_monthly_posts then
    (s, false)
  else
    let pid := effectiveId post freshId
    let post1 := { post with id := some pid }
    let s1 := { s with posts := insertKey pid post1 s.posts }
    if bookOk then
      let s2 := { s1 with jobs := addJob s1.jobs ("post_" ++ pid) post.scheduled_date }
      let post2 := { post1 with status := .scheduled }
      ({ s2 with posts := insertKey pid post2 s2.posts,
                 monthly_post_count := s2.monthly_post_count + 1 }, true)
    else
      (s1, false)

/-- `SchedulerService.schedule_thread`. Same conventions as
`schedule_post`; a thread with no posts is refused up front, then the
quota guard checks `count + len(posts) > max`; the thread is stored before
the trigger is booked. -/
def schedule_thread (s : SchedulerState) (thread : XThread)
    (bookOk : Bool) : SchedulerState × Bool :=
  if thread.posts.isEmpty then
    (s, false)
  else if s.monthly_post_count + thread.posts.length > s.max_monthly_posts then
    (s, false)
  else
    let s1 := { s with threads := insertKey thread.id thread s.threads }
    if bookOk then
      let s2 := { s1 with jobs := addJob s1.jobs ("thread_" ++ thread.id) thread.scheduled_date }
      let thread2 := { thread with status := .scheduled }
      ({ s2 with threads := insertKey thread.id thread2 s2.threads,
                 monthly_post_count := s2.monthly_post_count + thread.posts.length }, true)
    else
      (s1, false)

/-- `SchedulerService.cancel_post`. The `try` block removes the trigger
(raising `JobLookupError` if none is pending), then evaluates
`PostStatus.CANCELLED` — an attribute the enum does not define, so this
access raises `AttributeError`; both exceptions land in the catch-all
which returns `False`. The status update and counter decrement are only
reached if the attribute lookup were to succeed. -/
def cancel_post (s : SchedulerState) (post_id : String) :
    SchedulerState × Bool :=
  if ¬ hasKey post_id s.posts then
    (s, false)
  else
    match removeJob s.jobs ("post_" ++ post_id) with
    | none => (s, false)
    | some jobs' =>
      let s1 := { s with jobs := jobs' }
      match PostStatus.lookup "CANCELLED" with
      | none => (s1, false)
      | some st =>
        match lookupKey post_id s1.posts with
        | none => (s1, false)
        | some post =>
          ({ s1 with posts := insertKey post_id { post with status := st } s1.posts,
                     monthly_post_count := s1.monthly_post_count - 1 }, true)

/-- `SchedulerService.cancel_thread`. Mirrors `cancel_post` with the
member-count decrement. -/
def cancel_thread (s : SchedulerState) (thread_id : String) :
    SchedulerState × Bool :=
  if ¬ hasKey thread_id s.threads then
    (s, false)
  else
    match removeJob s.jobs ("thread_" ++ thread_id) with
    | none => (s, false)
    | some jobs' =>
      let s1 := { s with jobs := jobs' }
      match PostStatus.lookup "CANCELLED" with
      | none => (s1, false)
      | some st =>
        match lookupKey thread_id s1.threads with
        | none => (s1, false)
        | some thread =>
          ({ s1 with threads := insertKey thread_id { thread with status := st } s1.threads,
                     monthly_post_count := s1.monthly_post_count - thread.posts.length }, true)

/-- The sort key of `sorted(thread.posts, key=lambda p: p.thread_position or 0)`:
Python `x or 0` on an `Optional[int]` yields `0` for `None` (and for `0`),
the value itself otherwise — i.e. `Option.getD 0`. -/
def sortKey (p : XPost) : Int :=
  p.thread_position.getD 0

/-- Insert an indexed post into an already key-sorted list, before the
first element whose key is not smaller: together with `sortPosts` this is
a stable sort, so it computes the same list as Python's stable `sorted`. -/
def insertByKey (p : Nat × XPost) : List (Nat × XPost) → List (Nat × XPost)
  | [] => [p]
  | q :: qs =>
      if sortKey q.2 < sortKey p.2 then q :: insertByKey p qs
      else p :: q :: qs

/-- Stable sort of the enumerated member list by `sortKey` (the model of
`sorted(thread.posts, key=lambda p: p.thread_position or 0)`, with each
member paired with its index in the original list so that in-place
mutations can be written back). -/
def sortPosts : List (Nat × XPost) → List (Nat × XPost)
  | [] => []
  | p :: ps => insertByKey p (sortPosts ps)

/-- The reply loop of `XAPIService.publish_thread` over the members after
the first, in sorted order. For each member the combined
media-upload + `create_tweet` call is abstracted by the oracle `pub`
(`none` covers an unexpected response shape as well as a raised exception,
both of which make the source `return False`). Returns the list of
(index, updated member) mutations made so far, the list of members
actually attempted (in attempt order), and the success flag. A failing
member's call is not retried and aborts the walk; mutations already made
to earlier members persist. -/
def publishRest (pub : XPost → Option String) :
    List (Nat × XPost) → List (Nat × XPost) × List (Nat × XPost) × Bool
  | [] => ([], [], true)
  | (i, p) :: rest =>
    match pub p with
    | some xid =>
      ((i, { p with x_post_id := some xid, status := .published }) :: (publishRest pub rest).1,
       (i, p) :: (publishRest pub rest).2.1,
       (publishRest pub rest).2.2)
    | none => ([], [(i, p)], false)

/-- Write the in-place member mutations back into the original member
list (Python mutates the very objects held by `thread.posts`, so the
list order is untouched while the mutated members show the new fields). -/
def applyUpdates (posts : List XPost) (ups : List (Nat × XPost)) :
    List XPost :=
  posts.enum.map (fun ip => (lookupKey ip.1 ups).getD ip.2)

/-- `XAPIService.publish_thread`. Empty threads are refused; members are
sorted by `thread_position or 0` (stably); the first member is published
as a standalone unit via `publish_post`, whose result is checked for
truthiness (`if not first_post_id:` — `None` or the empty string fail);
the remaining members are published as replies by `publishRest`. Returns
(success flag, member list after the in-place mutations, attempted
members in attempt order). -/
def publish_thread (pub : XPost → Option String) (t : XThread) :
    Bool × List XPost × List (Nat × XPost) :=
  if t.posts.isEmpty then (false, t.posts, [])
  else
    match sortPosts t.posts.enum with
    | [] => (false, t.posts, [])
    | (i0, first) :: rest =>
      match pub first with
      | none => (false, t.posts, [(i0, first)])
      | some fid =>
        if fid = "" then (false, t.posts, [(i0, first)])
        else
          ((publishRest pub rest).2.2,
           applyUpdates t.posts
             ((i0, { first with x_post_id := some fid, status := .published }) ::
               (publishRest pub rest).1),
           (i0, first) :: (publishRest pub rest).2.1)

/-- Outcome of the `self.x_api.publish_post(post)` call as seen from the
firing callback: a returned id, a returned `None`, or a raised exception
(`publish_post` catches its own exceptions, but the callback's `try`
covers the call, so the raising outcome is modelled too). -/
inductive PubCall where
  | ok (xid : String)
  | noid
  | raised
deriving DecidableEq, Repr

/-- Replace a registered post's status in place. -/
def setPostStatus (s : SchedulerState) (pid : String) (st : PostStatus) :
    SchedulerState :=
  match lookupKey pid s.posts with
  | none => s
  | some post => { s with posts := insertKey pid { post with status := st } s.posts }

/-- Replace a registered thread in place. -/
def setThread (s : SchedulerState) (tid : String) (t : XThread) :
    SchedulerState :=
  { s with threads := insertKey tid t s.threads }

/-- The `try` block of `SchedulerService._publish_post_job`: silent return
when the id is unknown; on a returned id, truthiness decides between the
PUBLISHED and FAILED transitions (`if x_post_id:`); a raised exception
escapes the block as `Except.error`. -/
def publish_post_job_body (s : SchedulerState) (post_id : String)
    (r : PubCall) : Except Unit SchedulerState :=
  match lookupKey post_id s.posts with
  | none => Except.ok s
  | some post =>
    match r with
    | .raised => Except.error ()
    | .ok xid =>
      if xid = "" then Except.ok (setPostStatus s post_id .failed)
      else
        let post' := { post with x_post_id := some xid, status := PostStatus.published }
        Except.ok { s with posts := insertKey post_id post' s.posts }
    | .noid => Except.ok (setPostStatus s post_id .failed)

/-- `SchedulerService._publish_post_job` including its catch-all handler:
an exception from the body is caught and, when the post is registered,
converted into the FAILED transition. The result is an `Except` so that
"no exception propagates past the callback" is a statement, not a
modelling assumption. -/
def publish_post_job (s : SchedulerState) (post_id : String)
    (r : PubCall) : Except Unit SchedulerState :=
  match publish_post_job_body s post_id r with
  | Except.ok s' => Except.ok s'
  | Except.error _ =>
      Except.ok (if hasKey post_id s.posts then setPostStatus s post_id .failed else s)

/-- The `try` block of `SchedulerService._publish_thread_job`: silent
return when the id is unknown; otherwise `publish_thread` runs (its
outcome determined by the publisher oracle `pub`) and its flag decides
between the PUBLISHED and FAILED transitions of the thread; `raised`
models the call raising instead of returning. -/
def publish_thread_job_body (s : SchedulerState) (thread_id : String)
    (pub : XPost → Option String) (raised : Bool) :
    Except Unit SchedulerState :=
  match lookupKey thread_id s.threads with
  | none => Except.ok s
  | some thread =>
    if raised then Except.error ()
    else
      let res := publish_thread pub thread
      let st : PostStatus := if res.1 then .published else .failed
      let thread' := { thread with posts := res.2.1, status := st }
      Except.ok (setThread s thread_id thread')

/-- `SchedulerService._publish_thread_job` including its catch-all
handler, mirroring `publish_post_job`. -/
def publish_thread_job (s : SchedulerState) (thread_id : String)
    (pub : XPost → Option String) (raised : Bool) :
    Except Unit SchedulerState :=
  match publish_thread_job_body s thread_id pub raised with
  | Except.ok s' => Except.ok s'
  | Except.error _ =>
      Except.ok
        (match lookupKey thread_id s.threads with
         | none => s
         | some t => setThread s thread_id { t with status := .failed })

/-- Number of entries for a given key (used to count pending triggers
per job id). -/
def keyCount {κ α : Type} [DecidableEq κ] (k : κ) :
    List (κ × α) → Nat
  | [] => 0
  | (k', _) :: rest =>
      (if k' = k then 1 else 0) + keyCount k rest

example : PostStatus.lookup "CANCELLED" = none := rfl
example : PostStatus.lookup "FAILED" = some .failed := rfl


/-- A post with its registry identifier filled in (the state of the stored
object after `self.posts[post.id] = post`, before any status update). -/
def withId (p : XPost) (pid : String) : XPost :=
  { p with id := some pid }

/-- A post after a successful admission (`post.status = PostStatus.SCHEDULED`
applied to the stored object). -/
def scheduledWithId (p : XPost) (pid : String) : XPost :=
  { p with id := some pid, status := PostStatus.scheduled }

/-- A member after a successful publish call (`post.x_post_id = xid;
post.status = PostStatus.PUBLISHED`). -/
def publishedWith (p : XPost) (xid : String) : XPost :=
  { p with x_post_id := some xid, status := PostStatus.published }

/-- A thread after a successful admission. -/
def threadScheduled (t : XThread) : XThread :=
  { t with status := PostStatus.scheduled }

/-- A thread whose firing callback recorded FAILED. -/
def threadFailed (t : XThread) : XThread :=
  { t with status := PostStatus.failed }

/-- The registered thread object after its firing callback ran to
completion (members carry the in-place mutations; the thread status is
PUBLISHED exactly when `publish_thread` reported success). -/
def threadAfterPublish (pub : XPost → Option String) (t : XThread) : XThread :=
  { t with posts := (publish_thread pub t).2.1,
           status := if (publish_thread pub t).1 then PostStatus.published else PostStatus.failed }

/-- Members compare by their sort key: the order in which the publish
walk visits them. -/
abbrev keyLE (a b : Nat × XPost) : Prop :=
  sortKey a.2 ≤ sortKey b.2

/-! Concrete fixtures used by counterexamples, code-bug evaluations and
witnesses. -/

/-- A registered, SCHEDULED standalone post. -/
def fixPost : XPost :=
  { id := some "p1", content := "hi", scheduled_date := 3, status := .scheduled }

/-- A thread member. -/
def fixMember : XPost :=
  { content := "m", scheduled_date := 0, thread_position := some 1 }

/-- A registered, SCHEDULED two-member thread. -/
def fixThread : XThread :=
  { id := "t1",
    posts := [fixMember, { fixMember with content := "n", thread_position := some 2 }],
    scheduled_date := 4, status := .scheduled }

/-- A state holding one SCHEDULED post and one SCHEDULED thread, both with
pending triggers; three quota units consumed. -/
def fixState : SchedulerState :=
  { posts := [("p1", fixPost)], threads := [("t1", fixThread)],
    jobs := [("post_p1", 3), ("thread_t1", 4)],
    monthly_post_count := 3, max_monthly_posts := 500 }

/-- An already-PUBLISHED post whose trigger has fired (no pending job). -/
def firedPost : XPost :=
  { id := some "p2", content := "done", scheduled_date := 1,
    status := .published, x_post_id := some "900" }

/-- A state holding only the already-fired post. -/
def firedState : SchedulerState :=
  { posts := [("p2", firedPost)], threads := [], jobs := [],
    monthly_post_count := 5, max_monthly_posts := 500 }

/-- An empty engine state with a small ceiling. -/
def emptyState : SchedulerState :=
  { posts := [], threads := [], jobs := [],
    monthly_post_count := 0, max_monthly_posts := 10 }

/-- A fresh, unidentified post (as ingestion constructs it). -/
def freshPost : XPost :=
  { content := "hello", scheduled_date := 5 }

/-- Thread members at positions 3, 1, 2 (in that input order). -/
def memA : XPost := { content := "a", scheduled_date := 0, thread_position := some 3 }

def memB : XPost := { content := "b", scheduled_date := 0, thread_position := some 1 }

def memC : XPost := { content := "c", scheduled_date := 0, thread_position := some 2 }

/-- A thread whose member list is out of position order. -/
def outOfOrderThread : XThread :=
  { id := "t4", posts := [memA, memB, memC], scheduled_date := 9 }

/-- A publisher for which every call succeeds with a nonempty remote id. -/
def pubAllOk : XPost → Option String :=
  fun p => some ("r" ++ p.content)

/-- A publisher for which exactly the member at position 2 (content "c",
the second in walk order) fails. -/
def pubFailSecond : XPost → Option String :=
  fun p => if p.content = "c" then none else some ("r" ++ p.content)

/-- A 281-character content string (one past the validation bound). -/
def longContent : String :=
  String.mk (List.replicate 281 'a')

/-- A post with identifier "a" scheduled at time 10. -/
def reschedPost1 : XPost :=
  { id := some "a", content := "x1", scheduled_date := 10 }

/-- The same identifier "a" re-submitted with a new fire time 20. -/
def reschedPost2 : XPost :=
  { id := some "a", content := "x2", scheduled_date := 20 }

theorem setPostStatus_fields (s : SchedulerState) (pid : String)
    (st : PostStatus) :
    (setPostStatus s pid st).monthly_post_count = s.monthly_post_count ∧
    (setPostStatus s pid st).max_monthly_posts = s.max_monthly_posts ∧
    (setPostStatus s pid st).jobs = s.jobs ∧
    (setPostStatus s pid st).threads = s.threads := by
  unfold setPostStatus
  cases lookupKey pid s.posts <;> exact ⟨rfl, rfl, rfl, rfl⟩

theorem schedule_post_quota_refused (s : SchedulerState) (p : XPost)
    (f : String) (b : Bool)
    (h : s.monthly_post_count ≥ s.max_monthly_posts) :
    schedule_post s p f b = (s, false) := by
  unfold schedule_post; rw [if_pos h]

theorem schedule_post_book_failed (s : SchedulerState) (p : XPost)
    (f : String) (h : ¬ s.monthly_post_count ≥ s.max_monthly_posts) :
    schedule_post s p f false =
      ({ s with posts := insertKey (effectiveId p f) (withId p (effectiveId p f)) s.posts },
       false) := by
  unfold schedule_post; rw [if_neg h]; rfl

theorem schedule_post_success (s : SchedulerState) (p : XPost)
    (f : String) (h : ¬ s.monthly_post_count ≥ s.max_monthly_posts) :
    schedule_post s p f true =
      ({ s with
          posts := insertKey (effectiveId p f) (scheduledWithId p (effectiveId p f))
            (insertKey (effectiveId p f) (withId p (effectiveId p f)) s.posts),
          jobs := addJob s.jobs ("post_" ++ effectiveId p f) p.scheduled_date,
          monthly_post_count := s.monthly_post_count + 1 }, true) := by
  unfold schedule_post; rw [if_neg h]; rfl

theorem schedule_thread_empty_refused (s : SchedulerState) (t : XThread)
    (b : Bool) (h : t.posts.isEmpty = true) :
    schedule_thread s t b = (s, false) := by
  unfold schedule_thread; rw [h]; rfl

theorem schedule_thread_quota_refused (s : SchedulerState) (t : XThread)
    (b : Bool) (he : t.posts.isEmpty = false)
    (h : s.monthly_post_count + ↑t.posts.length > s.max_monthly_posts) :
    schedule_thread s t b = (s, false) := by
  unfold schedule_thread; rw [he, if_pos h]; rfl

theorem schedule_thread_book_failed (s : SchedulerState) (t : XThread)
    (he : t.posts.isEmpty = false)
    (h : ¬ s.monthly_post_count + ↑t.posts.length > s.max_monthly_posts) :
    schedule_thread s t false =
      ({ s with threads := insertKey t.id t s.threads }, false) := by
  unfold schedule_thread; rw [he, if_neg h]; rfl

theorem schedule_thread_success (s : SchedulerState) (t : XThread)
    (he : t.posts.isEmpty = false)
    (h : ¬ s.monthly_post_count + ↑t.posts.length > s.max_monthly_posts) :
    schedule_thread s t true =
      ({ s with
          threads := insertKey t.id (threadScheduled t) (insertKey t.id t s.threads),
          jobs := addJob s.jobs ("thread_" ++ t.id) t.scheduled_date,
          monthly_post_count := s.monthly_post_count + ↑t.posts.length }, true) := by
  unfold schedule_thread; rw [he, if_neg h]; rfl

theorem cancel_post_notfound (s : SchedulerState) (pid : String)
    (h : hasKey pid s.posts = false) :
    cancel_post s pid = (s, false) := by
  unfold cancel_post; rw [h]; simp

theorem cancel_post_nojob (s : SchedulerState) (pid : String)
    (h : hasKey pid s.posts = true)
    (hj : hasKey ("post_" ++ pid) s.jobs = false) :
    cancel_post s pid = (s, false) := by
  unfold cancel_post removeJob; rw [h, hj]; simp

theorem cancel_post_pending (s : SchedulerState) (pid : String)
    (h : hasKey pid s.posts = true)
    (hj : hasKey ("post_" ++ pid) s.jobs = true) :
    cancel_post s pid =
      ({ s with jobs := removeKey ("post_" ++ pid) s.jobs }, false) := by
  unfold cancel_post removeJob
  rw [h, hj, show PostStatus.lookup "CANCELLED" = none from rfl]
  simp

theorem cancel_thread_notfound (s : SchedulerState) (tid : String)
    (h : hasKey tid s.threads = false) :
    cancel_thread s tid = (s, false) := by
  unfold cancel_thread; rw [h]; simp

theorem cancel_thread_nojob (s : SchedulerState) (tid : String)
    (h : hasKey tid s.threads = true)
    (hj : hasKey ("thread_" ++ tid) s.jobs = false) :
    cancel_thread s tid = (s, false) := by
  unfold cancel_thread removeJob; rw [h, hj]; simp

theorem cancel_thread_pending (s : SchedulerState) (tid : String)
    (h : hasKey tid s.threads = true)
    (hj : hasKey ("thread_" ++ tid) s.jobs = true) :
    cancel_thread s tid =
      ({ s with jobs := removeKey ("thread_" ++ tid) s.jobs }, false) := by
  unfold cancel_thread removeJob
  rw [h, hj, show PostStatus.lookup "CANCELLED" = none from rfl]
  simp

theorem publish_post_job_unknown (s : SchedulerState) (pid : String)
    (r : PubCall) (hl : lookupKey pid s.posts = none) :
    publish_post_job s pid r = Except.ok s := by
  unfold publish_post_job publish_post_job_body; rw [hl]

theorem publish_post_job_ok (s : SchedulerState) (pid : String)
    (xid : String) (post : XPost) (hl : lookupKey pid s.posts = some post)
    (hx : ¬ xid = "") :
    publish_post_job s pid (.ok xid) =
      Except.ok { s with posts := insertKey pid (publishedWith post xid) s.posts } := by
  unfold publish_post_job publish_post_job_body
  rw [hl]
  dsimp only
  rw [if_neg hx]
  rfl

theorem publish_post_job_emptyid (s : SchedulerState) (pid : String)
    (post : XPost) (hl : lookupKey pid s.posts = some post) :
    publish_post_job s pid (.ok "") =
      Except.ok (setPostStatus s pid .failed) := by
  unfold publish_post_job publish_post_job_body
  rw [hl]
  rfl

theorem publish_post_job_noid (s : SchedulerState) (pid : String)
    (post : XPost) (hl : lookupKey pid s.posts = some post) :
    publish_post_job s pid .noid =
      Except.ok (setPostStatus s pid .failed) := by
  unfold publish_post_job publish_post_job_body
  rw [hl]

theorem publish_post_job_raised (s : SchedulerState) (pid : String)
    (post : XPost) (hl : lookupKey pid s.posts = some post) :
    publish_post_job s pid .raised =
      Except.ok (setPostStatus s pid .failed) := by
  unfold publish_post_job publish_post_job_body hasKey
  rw [hl]
  rfl

theorem publish_thread_job_unknown (s : SchedulerState) (tid : String)
    (pub : XPost → Option String) (rz : Bool)
    (hl : lookupKey tid s.threads = none) :
    publish_thread_job s tid pub rz = Except.ok s := by
  unfold publish_thread_job publish_thread_job_body; rw [hl]

theorem publish_thread_job_raised (s : SchedulerState) (tid : String)
    (pub : XPost → Option String) (thread : XThread)
    (hl : lookupKey tid s.threads = some thread) :
    publish_thread_job s tid pub true =
      Except.ok (setThread s tid (threadFailed thread)) := by
  unfold publish_thread_job publish_thread_job_body threadFailed
  rw [hl]
  rfl

theorem publish_thread_job_run (s : SchedulerState) (tid : String)
    (pub : XPost → Option String) (thread : XThread)
    (hl : lookupKey tid s.threads = some thread) :
    publish_thread_job s tid pub false =
      Except.ok (setThread s tid (threadAfterPublish pub thread)) := by
  unfold publish_thread_job publish_thread_job_body threadAfterPublish
  rw [hl]
  rfl

theorem publish_post_job_count_unchanged (s : SchedulerState) (pid : String)
    (r : PubCall) (s' : SchedulerState)
    (h : publish_post_job s pid r = Except.ok s') :
    s'.monthly_post_count = s.monthly_post_count := by
  cases hl : lookupKey pid s.posts with
  | none =>
    rw [publish_post_job_unknown s pid r hl] at h
    cases h; rfl
  | some post =>
    cases r with
    | raised =>
      rw [publish_post_job_raised s pid post hl] at h
      cases h; exact (setPostStatus_fields s pid .failed).1
    | noid =>
      rw [publish_post_job_noid s pid post hl] at h
      cases h; exact (setPostStatus_fields s pid .failed).1
    | ok xid =>
      by_cases hx : xid = ""
      · subst hx
        rw [publish_post_job_emptyid s pid post hl] at h
        cases h; exact (setPostStatus_fields s pid .failed).1
      · rw [publish_post_job_ok s pid xid post hl hx] at h
        cases h; rfl

theorem publish_thread_job_count_unchanged (s : SchedulerState)
    (tid : String) (pub : XPost → Option String) (rz : Bool)
    (s' : SchedulerState)
    (h : publish_thread_job s tid pub rz = Except.ok s') :
    s'.monthly_post_count = s.monthly_post_count := by
  cases hl : lookupKey tid s.threads with
  | none =>
    rw [publish_thread_job_unknown s tid pub rz hl] at h
    cases h; rfl
  | some thread =>
    cases rz with
    | true =>
      rw [publish_thread_job_raised s tid pub thread hl] at h
      cases h; rfl
    | false =>
      rw [publish_thread_job_run s tid pub thread hl] at h
      cases h; rfl

/-- C3: the quota counter never exceeds the ceiling. `schedule_post`
admits — and then increments by exactly 1 — only when
`consumed + 1 ≤ ceiling` (the source guard is `count >= max`);
`schedule_thread` admits — and increments by the member count — only when
`consumed + members ≤ ceiling`; the cancel operations and the firing
callbacks never change the counter (the cancel decrement is unreachable,
because the `PostStatus.CANCELLED` attribute access raises first), so
from any state within the ceiling no operation raises the counter above
it. -/
theorem quota_ceiling_invariant (s : SchedulerState)
    (hs : s.monthly_post_count ≤ s.max_monthly_posts) :
    (∀ p f b, ((schedule_post s p f b).2 = true →
        s.monthly_post_count + 1 ≤ s.max_monthly_posts ∧
        (schedule_post s p f b).1.monthly_post_count = s.monthly_post_count + 1) ∧
      (schedule_post s p f b).1.monthly_post_count ≤ (schedule_post s p f b).1.max_monthly_posts ∧
      (schedule_post s p f b).1.max_monthly_posts = s.max_monthly_posts) ∧
    (∀ t b, ((schedule_thread s t b).2 = true →
        s.monthly_post_count + ↑t.posts.length ≤ s.max_monthly_posts ∧
        (schedule_thread s t b).1.monthly_post_count = s.monthly_post_count + ↑t.posts.length) ∧
      (schedule_thread s t b).1.monthly_post_count ≤ (schedule_thread s t b).1.max_monthly_posts ∧
      (schedule_thread s t b).1.max_monthly_posts = s.max_monthly_posts) ∧
    (∀ pid, (cancel_post s pid).1.monthly_post_count = s.monthly_post_count) ∧
    (∀ tid, (cancel_thread s tid).1.monthly_post_count = s.monthly_post_count) ∧
    (∀ pid r s', publish_post_job s pid r = Except.ok s' →
      s'.monthly_post_count = s.monthly_post_count) ∧
    (∀ tid pub rz s', publish_thread_job s tid pub rz = Except.ok s' →
      s'.monthly_post_count = s.monthly_post_count) := by
  refine ⟨?_, ?_, ?_, ?_, ?_, ?_⟩
  · intro p f b
    by_cases hq : s.monthly_post_count ≥ s.max_monthly_posts
    · rw [schedule_post_quota_refused s p f b hq]
      exact ⟨fun h => by simp at h, hs, rfl⟩
    · cases b with
      | false =>
        rw [schedule_post_book_failed s p f hq]
        exact ⟨fun h => by simp at h, hs, rfl⟩
      | true =>
        rw [schedule_post_success s p f hq]
        exact ⟨fun _ => ⟨by omega, rfl⟩, by dsimp; omega, rfl⟩
  · intro t b
    cases he : t.posts.isEmpty with
    | true =>
      rw [schedule_thread_empty_refused s t b he]
      exact ⟨fun h => by simp at h, hs, rfl⟩
    | false =>
      by_cases hq : s.monthly_post_count + ↑t.posts.length > s.max_monthly_posts
      · rw [schedule_thread_quota_refused s t b he hq]
        exact ⟨fun h => by simp at h, hs, rfl⟩
      · cases b with
        | false =>
          rw [schedule_thread_book_failed s t he hq]
          exact ⟨fun h => by simp at h, hs, rfl⟩
        | true =>
          rw [schedule_thread_success s t he hq]
          exact ⟨fun _ => ⟨by omega, rfl⟩, by dsimp; omega, rfl⟩
  · intro pid
    cases h : hasKey pid s.posts with
    | false => rw [cancel_post_notfound s pid h]
    | true =>
      cases hj : hasKey ("post_" ++ pid) s.jobs with
      | false => rw [cancel_post_nojob s pid h hj]
      | true => rw [cancel_post_pending s pid h hj]
  · intro tid
    cases h : hasKey tid s.threads with
    | false => rw [cancel_thread_notfound s tid h]
    | true =>
      cases hj : hasKey ("thread_" ++ tid) s.jobs with
      | false => rw [cancel_thread_nojob s tid h hj]
      | true => rw [cancel_thread_pending s tid h hj]
  · exact fun pid r s' h => publish_post_job_count_unchanged s pid r s' h
  · exact fun tid pub rz s' h => publish_thread_job_count_unchanged s tid pub rz s' h

theorem insertByKey_perm (p : Nat × XPost) (l : List (Nat × XPost)) :
    List.Perm (insertByKey p l) (p :: l) := by
  induction l with
  | nil => exact List.Perm.refl _
  | cons q qs ih =>
    unfold insertByKey
    split
    · exact ((List.Perm.cons q ih).trans (List.Perm.swap p q qs))
    · exact List.Perm.refl _

theorem sortPosts_perm (l : List (Nat × XPost)) :
    List.Perm (sortPosts l) l := by
  induction l with
  | nil => exact List.Perm.refl _
  | cons p ps ih =>
    unfold sortPosts
    exact (insertByKey_perm p (sortPosts ps)).trans (List.Perm.cons p ih)

theorem insertByKey_pairwise (p : Nat × XPost) (l : List (Nat × XPost))
    (h : l.Pairwise keyLE) : (insertByKey p l).Pairwise keyLE := by
  induction l with
  | nil => simp [insertByKey]
  | cons q qs ih =>
    unfold insertByKey
    rcases List.pairwise_cons.mp h with ⟨hq, hqs⟩
    split
    · rename_i hlt
      refine List.pairwise_cons.mpr ⟨?_, ih hqs⟩
      intro x hx
      rcases List.mem_cons.mp ((insertByKey_perm p qs).mem_iff.mp hx) with hxe | hx'
      · subst hxe; exact le_of_lt hlt
      · exact hq x hx'
    · rename_i hnlt
      refine List.pairwise_cons.mpr ⟨?_, h⟩
      intro x hx
      have hpq : sortKey p.2 ≤ sortKey q.2 := le_of_not_lt hnlt
      rcases List.mem_cons.mp hx with hxe | hx'
      · subst hxe; exact hpq
      · exact le_trans hpq (hq x hx')

theorem sortPosts_pairwise (l : List (Nat × XPost)) :
    (sortPosts l).Pairwise keyLE := by
  induction l with
  | nil => simp [sortPosts]
  | cons p ps ih =>
    unfold sortPosts
    exact insertByKey_pairwise p (sortPosts ps) ih

theorem publishRest_trace_sublist (pub : XPost → Option String)
    (l : List (Nat × XPost)) :
    List.Sublist (publishRest pub l).2.1 l := by
  induction l with
  | nil => simp [publishRest]
  | cons ip rest ih =>
    obtain ⟨i, p⟩ := ip
    unfold publishRest
    cases hp : pub p with
    | some xid => exact List.Sublist.cons₂ (i, p) ih
    | none => exact List.Sublist.cons₂ (i, p) (List.nil_sublist rest)

theorem publishRest_ok_iff (pub : XPost → Option String)
    (l : List (Nat × XPost)) :
    (publishRest pub l).2.2 = true ↔ ∀ x ∈ l, (pub x.2).isSome = true := by
  induction l with
  | nil => simp [publishRest]
  | cons ip rest ih =>
    obtain ⟨i, p⟩ := ip
    unfold publishRest
    cases hp : pub p with
    | some xid => simp [List.forall_mem_cons, hp, ih]
    | none => simp [List.forall_mem_cons, hp]

theorem publishRest_trace_of_ok (pub : XPost → Option String)
    (l : List (Nat × XPost)) (h : (publishRest pub l).2.2 = true) :
    (publishRest pub l).2.1 = l := by
  induction l with
  | nil => simp [publishRest]
  | cons ip rest ih =>
    obtain ⟨i, p⟩ := ip
    unfold publishRest at h ⊢
    cases hp : pub p with
    | some xid =>
      rw [hp] at h
      simp only [List.cons.injEq, true_and]
      exact ih h
    | none => rw [hp] at h; simp at h

theorem snd_mem_of_mem_enum {l : List XPost} {x : Nat × XPost}
    (h : x ∈ l.enum) : x.2 ∈ l :=
  List.getElem?_mem (List.mem_enum_iff_getElem?.mp h)

theorem mem_enum_of_mem {l : List XPost} {p : XPost} (h : p ∈ l) :
    ∃ i, (i, p) ∈ l.enum := by
  rcases List.getElem?_of_mem h with ⟨i, hi⟩
  exact ⟨i, List.mem_enum_iff_getElem?.mpr hi⟩

theorem isEmpty_false_of_sortPosts_cons (t : XThread) (x : Nat × XPost)
    (r : List (Nat × XPost)) (hst : sortPosts t.posts.enum = x :: r) :
    t.posts.isEmpty = false := by
  cases hp : t.posts with
  | cons a as => rfl
  | nil =>
    rw [hp] at hst
    simp [sortPosts, List.enum] at hst

theorem publish_thread_eq (pub : XPost → Option String) (t : XThread)
    (i0 : Nat) (first : XPost) (rest : List (Nat × XPost))
    (hst : sortPosts t.posts.enum = (i0, first) :: rest) :
    publish_thread pub t =
      match pub first with
      | none => (false, t.posts, [(i0, first)])
      | some fid =>
        if fid = "" then (false, t.posts, [(i0, first)])
        else ((publishRest pub rest).2.2,
              applyUpdates t.posts
                ((i0, publishedWith first fid) :: (publishRest pub rest).1),
              (i0, first) :: (publishRest pub rest).2.1) := by
  unfold publish_thread
  rw [isEmpty_false_of_sortPosts_cons t _ _ hst, hst]
  rfl

theorem applyUpdates_getElem? (posts : List XPost)
    (ups : List (Nat × XPost)) (i : Nat) :
    (applyUpdates posts ups)[i]? =
      (posts[i]?).map (fun p => (lookupKey i ups).getD p) := by
  unfold applyUpdates
  rw [List.getElem?_map, List.getElem?_enum]
  cases posts[i]? <;> rfl

/-- C4: for every non-empty thread (and a publisher oracle that never
returns the empty string for a remote id), the publish walk visits
members in ascending order of `thread_position or 0` regardless of the
input order of the member list, and the thread's final status after its
firing callback is PUBLISHED exactly when every member's publish call
succeeds. -/
theorem thread_publishes_in_ascending_position_order
    (pub : XPost → Option String) (t : XThread)
    (hne : t.posts ≠ [])
    (hid : ∀ p ∈ t.posts, pub p ≠ some "") :
    (publish_thread pub t).2.2.Pairwise keyLE ∧
    ((publish_thread pub t).1 = true ↔ ∀ p ∈ t.posts, (pub p).isSome = true) ∧
    ((publish_thread pub t).1 = true →
      List.Perm ((publish_thread pub t).2.2.map Prod.snd) t.posts) ∧
    (∀ (s : SchedulerState) (tid : String), lookupKey tid s.threads = some t →
      publish_thread_job s tid pub false =
        Except.ok (setThread s tid (threadAfterPublish pub t)) ∧
      ((threadAfterPublish pub t).status = PostStatus.published ↔
        ∀ p ∈ t.posts, (pub p).isSome = true)) := by
  cases hst : sortPosts t.posts.enum with
  | nil =>
    exfalso
    have hperm := sortPosts_perm t.posts.enum
    rw [hst] at hperm
    have henil : t.posts.enum = [] := hperm.symm.eq_nil
    cases hp : t.posts with
    | nil => exact hne hp
    | cons a as => rw [hp] at henil; simp [List.enum] at henil
  | cons hd rest =>
    obtain ⟨i0, first⟩ := hd
    have heq := publish_thread_eq pub t i0 first rest hst
    have hperm : List.Perm ((i0, first) :: rest) t.posts.enum := by
      have h := sortPosts_perm t.posts.enum; rw [hst] at h; exact h
    have hfirst_mem : first ∈ t.posts :=
      snd_mem_of_mem_enum (hperm.subset (List.mem_cons_self _ _))
    have hpair : ((i0, first) :: rest).Pairwise keyLE := by
      have h := sortPosts_pairwise t.posts.enum; rw [hst] at h; exact h
    have hall : (∀ p ∈ t.posts, (pub p).isSome = true) ↔
        (∀ x ∈ (i0, first) :: rest, (pub x.2).isSome = true) := by
      constructor
      · intro h x hx
        exact h x.2 (snd_mem_of_mem_enum (hperm.subset hx))
      · intro h p hp
        rcases mem_enum_of_mem hp with ⟨i, hi⟩
        exact h (i, p) (hperm.symm.subset hi)
    have hpairTrace : (publish_thread pub t).2.2.Pairwise keyLE := by
      cases hf : pub first with
      | none => rw [heq, hf]; simp
      | some fid =>
        have hfe : ¬ fid = "" := fun he => hid first hfirst_mem (by rw [← he]; exact hf)
        rw [heq, hf]
        dsimp only
        rw [if_neg hfe]
        dsimp only
        exact hpair.sublist
          (List.Sublist.cons₂ (i0, first) (publishRest_trace_sublist pub rest))
    have hiff : (publish_thread pub t).1 = true ↔
        ∀ p ∈ t.posts, (pub p).isSome = true := by
      cases hf : pub first with
      | none =>
        rw [heq, hf]
        dsimp only
        refine iff_of_false (by simp) ?_
        intro hF
        have h := hF first hfirst_mem
        rw [hf] at h
        simp at h
      | some fid =>
        have hfe : ¬ fid = "" := fun he => hid first hfirst_mem (by rw [← he]; exact hf)
        rw [heq, hf]
        dsimp only
        rw [if_neg hfe]
        dsimp only
        rw [publishRest_ok_iff, hall, List.forall_mem_cons]
        simp [hf]
    have hperm3 : (publish_thread pub t).1 = true →
        List.Perm ((publish_thread pub t).2.2.map Prod.snd) t.posts := by
      intro hok
      cases hf : pub first with
      | none => rw [heq, hf] at hok; simp at hok
      | some fid =>
        by_cases hfe : fid = ""
        · rw [heq, hf] at hok
          dsimp only at hok
          rw [if_pos hfe] at hok
          simp at hok
        · rw [heq, hf] at hok ⊢
          dsimp only at hok ⊢
          rw [if_neg hfe] at hok ⊢
          dsimp only at hok ⊢
          rw [publishRest_trace_of_ok pub rest hok]
          have h := hperm.map Prod.snd
          rw [List.enum_map_snd] at h
          exact h
    refine ⟨hpairTrace, hiff, hperm3, ?_⟩
    intro s tid hl
    refine ⟨publish_thread_job_run s tid pub t hl, ?_⟩
    unfold threadAfterPublish
    cases hfl : (publish_thread pub t).1 with
    | true =>
      dsimp only
      exact iff_of_true rfl (hiff.mp hfl)
    | false =>
      dsimp only
      refine iff_of_false (by decide) ?_
      intro hF
      have h := hiff.mpr hF
      rw [hfl] at h
      exact Bool.noConfusion h

/-- C4 witness: the members of `outOfOrderThread` sit at positions
[3, 1, 2]; under the all-succeeding publisher the walk is ascending, the
flag is true, the trace covers all members, and the registered thread
ends PUBLISHED. -/
theorem thread_publishes_in_ascending_position_order_witness :
    (publish_thread pubAllOk outOfOrderThread).2.2.Pairwise keyLE ∧
    ((publish_thread pubAllOk outOfOrderThread).1 = true ↔
      ∀ p ∈ outOfOrderThread.posts, (pubAllOk p).isSome = true) ∧
    ((publish_thread pubAllOk outOfOrderThread).1 = true →
      List.Perm ((publish_thread pubAllOk outOfOrderThread).2.2.map Prod.snd)
        outOfOrderThread.posts) ∧
    (∀ (s : SchedulerState) (tid : String),
      lookupKey tid s.threads = some outOfOrderThread →
      publish_thread_job s tid pubAllOk false =
        Except.ok (setThread s tid (threadAfterPublish pubAllOk outOfOrderThread)) ∧
      ((threadAfterPublish pubAllOk outOfOrderThread).status = PostStatus.published ↔
        ∀ p ∈ outOfOrderThread.posts, (pubAllOk p).isSome = true)) :=
  thread_publishes_in_ascending_position_order pubAllOk outOfOrderThread
    (by decide) (by decide)

/-- C5: the first member-level failure aborts the remaining sequence.
With three members in walk order m1, m2, m3, where m1's call returns a
(nonempty) remote id and m2's call fails: the walk returns failure, its
trace is exactly [m1, m2] (the failing call is not retried, m3 is never
attempted), the member list keeps m1 PUBLISHED with its recorded remote
id while m3 is untouched, and the registered thread's status becomes
FAILED. -/
theorem thread_member_failure_aborts
    (pub : XPost → Option String) (t : XThread)
    (i₁ i₂ i₃ : Nat) (m₁ m₂ m₃ : XPost) (id₁ : String)
    (hst : sortPosts t.posts.enum = [(i₁, m₁), (i₂, m₂), (i₃, m₃)])
    (h₁ : pub m₁ = some id₁) (hne₁ : ¬ id₁ = "")
    (h₂ : pub m₂ = none)
    (hg₁ : t.posts[i₁]? = some m₁)
    (hg₃ : t.posts[i₃]? = some m₃)
    (h₁₃ : i₁ ≠ i₃) :
    publish_thread pub t =
      (false, applyUpdates t.posts [(i₁, publishedWith m₁ id₁)],
       [(i₁, m₁), (i₂, m₂)]) ∧
    (publish_thread pub t).2.1[i₁]? = some (publishedWith m₁ id₁) ∧
    (publish_thread pub t).2.1[i₃]? = some m₃ ∧
    (threadAfterPublish pub t).status = PostStatus.failed ∧
    (∀ (s : SchedulerState) (tid : String), lookupKey tid s.threads = some t →
      publish_thread_job s tid pub false =
        Except.ok (setThread s tid (threadAfterPublish pub t))) := by
  have heq := publish_thread_eq pub t i₁ m₁ [(i₂, m₂), (i₃, m₃)] hst
  have hmain : publish_thread pub t =
      (false, applyUpdates t.posts [(i₁, publishedWith m₁ id₁)],
       [(i₁, m₁), (i₂, m₂)]) := by
    rw [heq, h₁]
    dsimp only
    rw [if_neg hne₁]
    unfold publishRest
    rw [h₂]
  refine ⟨hmain, ?_, ?_, ?_, ?_⟩
  · rw [hmain]
    dsimp only
    rw [applyUpdates_getElem?, hg₁]
    simp [lookupKey]
  · rw [hmain]
    dsimp only
    rw [applyUpdates_getElem?, hg₃]
    have hl : lookupKey i₃ [(i₁, publishedWith m₁ id₁)] = none := by
      unfold lookupKey
      rw [if_neg h₁₃]
      rfl
    simp [hl]
  · unfold threadAfterPublish
    rw [hmain]
    rfl
  · intro s tid hl
    exact publish_thread_job_run s tid pub t hl

/-- C5 witness: in `outOfOrderThread` the walk order is memB (pos 1),
memC (pos 2), memA (pos 3); under `pubFailSecond` memB succeeds and memC
fails, so the walk stops after memB and memC, memA stays untouched and
the thread fails. -/
theorem thread_member_failure_aborts_witness :
    publish_thread pubFailSecond outOfOrderThread =
      (false,
       applyUpdates outOfOrderThread.posts [(1, publishedWith memB "rb")],
       [(1, memB), (2, memC)]) ∧
    (publish_thread pubFailSecond outOfOrderThread).2.1[1]? =
      some (publishedWith memB "rb") ∧
    (publish_thread pubFailSecond outOfOrderThread).2.1[0]? = some memA ∧
    (threadAfterPublish pubFailSecond outOfOrderThread).status = PostStatus.failed ∧
    (∀ (s : SchedulerState) (tid : String),
      lookupKey tid s.threads = some outOfOrderThread →
      publish_thread_job s tid pubFailSecond false =
        Except.ok (setThread s tid (threadAfterPublish pubFailSecond outOfOrderThread))) :=
  thread_member_failure_aborts pubFailSecond outOfOrderThread
    1 2 0 memB memC memA "rb"
    (by decide) (by decide) (by decide) (by decide)
    (by decide) (by decide) (by decide)

/-- C6: for every identifier, `cancel_post` / `cancel_thread` return
false — the status enumeration defines no CANCELLED member, so the
assignment raises an `AttributeError` that the catch-all handler eats.
The registry and the quota counter are left unchanged; when a pending
trigger existed for a registered identifier, its removal has nevertheless
already taken effect by the time the attribute access raises. -/
theorem cancel_always_returns_false (s : SchedulerState)
    (pid tid : String) :
    ((cancel_post s pid).2 = false ∧
      (cancel_post s pid).1.posts = s.posts ∧
      (cancel_post s pid).1.monthly_post_count = s.monthly_post_count ∧
      (hasKey pid s.posts = true → hasKey ("post_" ++ pid) s.jobs = true →
        (cancel_post s pid).1.jobs = removeKey ("post_" ++ pid) s.jobs)) ∧
    ((cancel_thread s tid).2 = false ∧
      (cancel_thread s tid).1.threads = s.threads ∧
      (cancel_thread s tid).1.monthly_post_count = s.monthly_post_count ∧
      (hasKey tid s.threads = true → hasKey ("thread_" ++ tid) s.jobs = true →
        (cancel_thread s tid).1.jobs = removeKey ("thread_" ++ tid) s.jobs)) := by
  constructor
  · cases h : hasKey pid s.posts with
    | false =>
      rw [cancel_post_notfound s pid h]
      exact ⟨rfl, rfl, rfl, fun h1 _ => Bool.noConfusion h1⟩
    | true =>
      cases hj : hasKey ("post_" ++ pid) s.jobs with
      | false =>
        rw [cancel_post_nojob s pid h hj]
        exact ⟨rfl, rfl, rfl, fun _ h2 => Bool.noConfusion h2⟩
      | true =>
        rw [cancel_post_pending s pid h hj]
        exact ⟨rfl, rfl, rfl, fun _ _ => rfl⟩
  · cases h : hasKey tid s.threads with
    | false =>
      rw [cancel_thread_notfound s tid h]
      exact ⟨rfl, rfl, rfl, fun h1 _ => Bool.noConfusion h1⟩
    | true =>
      cases hj : hasKey ("thread_" ++ tid) s.jobs with
      | false =>
        rw [cancel_thread_nojob s tid h hj]
        exact ⟨rfl, rfl, rfl, fun _ h2 => Bool.noConfusion h2⟩
      | true =>
        rw [cancel_thread_pending s tid h hj]
        exact ⟨rfl, rfl, rfl, fun _ _ => rfl⟩

/-- C6 witness: on the state holding one scheduled post and one scheduled
thread with pending triggers, both cancels return false while the trigger
removal took effect. -/
theorem cancel_always_returns_false_witness :
    (cancel_post fixState "p1").2 = false ∧
    (cancel_post fixState "p1").1.jobs = removeKey ("post_" ++ "p1") fixState.jobs ∧
    (cancel_thread fixState "t1").2 = false ∧
    (cancel_thread fixState "t1").1.jobs = removeKey ("thread_" ++ "t1") fixState.jobs :=
  ⟨(cancel_always_returns_false fixState "p1" "t1").1.1,
   (cancel_always_returns_false fixState "p1" "t1").1.2.2.2 (by decide) (by decide),
   (cancel_always_returns_false fixState "p1" "t1").2.1,
   (cancel_always_returns_false fixState "p1" "t1").2.2.2.2 (by decide) (by decide)⟩

/-- C7: the firing callbacks `_publish_post_job` and `_publish_thread_job`
always return normally (`Except.ok`): a missing entity is a silent
return, and every failure — a publisher returning nothing, an unexpected
(falsy) response, or a raised exception — is converted into the FAILED
status transition of the registered entity. -/
theorem firing_callbacks_never_propagate (s : SchedulerState)
    (pid tid : String) (r : PubCall) (pub : XPost → Option String)
    (rz : Bool) :
    (∃ s', publish_post_job s pid r = Except.ok s') ∧
    (lookupKey pid s.posts = none → publish_post_job s pid r = Except.ok s) ∧
    (∀ post, lookupKey pid s.posts = some post →
      r = PubCall.noid ∨ r = PubCall.raised →
      publish_post_job s pid r = Except.ok (setPostStatus s pid PostStatus.failed)) ∧
    (∃ s', publish_thread_job s tid pub rz = Except.ok s') ∧
    (lookupKey tid s.threads = none →
      publish_thread_job s tid pub rz = Except.ok s) ∧
    (∀ t, lookupKey tid s.threads = some t →
      publish_thread_job s tid pub true =
        Except.ok (setThread s tid (threadFailed t))) := by
  refine ⟨?_, ?_, ?_, ?_, ?_, ?_⟩
  · cases hl : lookupKey pid s.posts with
    | none => exact ⟨s, publish_post_job_unknown s pid r hl⟩
    | some post =>
      cases r with
      | raised => exact ⟨_, publish_post_job_raised s pid post hl⟩
      | noid => exact ⟨_, publish_post_job_noid s pid post hl⟩
      | ok xid =>
        by_cases hx : xid = ""
        · subst hx
          exact ⟨_, publish_post_job_emptyid s pid post hl⟩
        · exact ⟨_, publish_post_job_ok s pid xid post hl hx⟩
  · intro hl
    exact publish_post_job_unknown s pid r hl
  · intro post hl hr
    rcases hr with rfl | rfl
    · exact publish_post_job_noid s pid post hl
    · exact publish_post_job_raised s pid post hl
  · cases hl : lookupKey tid s.threads with
    | none => exact ⟨s, publish_thread_job_unknown s tid pub rz hl⟩
    | some t =>
      cases rz with
      | true => exact ⟨_, publish_thread_job_raised s tid pub t hl⟩
      | false => exact ⟨_, publish_thread_job_run s tid pub t hl⟩
  · intro hl
    exact publish_thread_job_unknown s tid pub rz hl
  · intro t hl
    exact publish_thread_job_raised s tid pub t hl

/-- C7 witness: a raised publisher exception on the registered post and
thread is converted into their FAILED transitions. -/
theorem firing_callbacks_never_propagate_witness :
    publish_post_job fixState "p1" PubCall.raised =
      Except.ok (setPostStatus fixState "p1" PostStatus.failed) ∧
    publish_thread_job fixState "t1" pubAllOk true =
      Except.ok (setThread fixState "t1" (threadFailed fixThread)) :=
  ⟨(firing_callbacks_never_propagate fixState "p1" "t1" PubCall.raised
      pubAllOk true).2.2.1 fixPost (by decide) (Or.inr rfl),
   (firing_callbacks_never_propagate fixState "p1" "t1" PubCall.raised
      pubAllOk true).2.2.2.2.2 fixThread (by decide)⟩

/-- C8: `cancel_post` returns false both for an identifier that never
existed and for one whose post already fired (registered, PUBLISHED, no
pending trigger), and the returned value is the same in both cases, so
the caller cannot tell the causes apart. -/
theorem cancel_post_unknown_and_fired_indistinguishable
    (s : SchedulerState) (pid₁ pid₂ : String) (p : XPost)
    (h₁ : lookupKey pid₁ s.posts = none)
    (h₂ : lookupKey pid₂ s.posts = some p)
    (_hpub : p.status = PostStatus.published)
    (hfired : hasKey ("post_" ++ pid₂) s.jobs = false) :
    cancel_post s pid₁ = (s, false) ∧
    cancel_post s pid₂ = (s, false) ∧
    (cancel_post s pid₁).2 = (cancel_post s pid₂).2 := by
  have hk₁ : hasKey pid₁ s.posts = false := by
    unfold hasKey; rw [h₁]; rfl
  have hk₂ : hasKey pid₂ s.posts = true := by
    unfold hasKey; rw [h₂]; rfl
  refine ⟨cancel_post_notfound s pid₁ hk₁,
    cancel_post_nojob s pid₂ hk₂ hfired, ?_⟩
  rw [cancel_post_notfound s pid₁ hk₁, cancel_post_nojob s pid₂ hk₂ hfired]

/-- C8 witness: on a state holding only the already-fired post "p2",
cancelling the unknown "ghost" and cancelling "p2" both yield
(state unchanged, false). -/
theorem cancel_post_unknown_and_fired_indistinguishable_witness :
    cancel_post firedState "ghost" = (firedState, false) ∧
    cancel_post firedState "p2" = (firedState, false) ∧
    (cancel_post firedState "ghost").2 = (cancel_post firedState "p2").2 :=
  cancel_post_unknown_and_fired_indistinguishable firedState "ghost" "p2"
    firedPost (by decide) (by decide) (by decide) (by decide)

theorem mem_insertKey {κ α : Type} [DecidableEq κ] (k : κ) (v : α)
    (l : List (κ × α)) (kv : κ × α) (h : kv ∈ insertKey k v l) :
    kv = (k, v) ∨ kv ∈ l := by
  induction l with
  | nil =>
    simp only [insertKey, List.mem_singleton] at h
    exact Or.inl h
  | cons hd tl ih =>
    obtain ⟨k', v'⟩ := hd
    unfold insertKey at h
    split at h
    · rcases List.mem_cons.mp h with he | ht
      · exact Or.inl he
      · exact Or.inr (List.mem_cons_of_mem _ ht)
    · rcases List.mem_cons.mp h with he | ht
      · exact Or.inr (he ▸ List.mem_cons_self _ _)
      · rcases ih ht with h1 | h2
        · exact Or.inl h1
        · exact Or.inr (List.mem_cons_of_mem _ h2)

/-- C9: content longer than 280 characters fails the pydantic validator
(so such a post is never constructed, hence never submitted for
admission), content within the bound passes unchanged, and the registry
invariant "every stored post's content is within the bound" is preserved
by admission of validated posts. -/
theorem overlong_content_never_reaches_registry (c : String)
    (s : SchedulerState) (p : XPost) (f : String) (b : Bool)
    (hinv : ∀ kv ∈ s.posts, kv.2.content.length ≤ 280)
    (hp : p.content.length ≤ 280) :
    (c.length > 280 →
      validate_content_length c = Except.error "Content exceeds 280 characters") ∧
    (c.length ≤ 280 → validate_content_length c = Except.ok c) ∧
    (∀ kv ∈ (schedule_post s p f b).1.posts, kv.2.content.length ≤ 280) := by
  refine ⟨?_, ?_, ?_⟩
  · intro h
    unfold validate_content_length
    rw [if_pos h]
  · intro h
    unfold validate_content_length
    rw [if_neg (by omega)]
  · by_cases hq : s.monthly_post_count ≥ s.max_monthly_posts
    · rw [schedule_post_quota_refused s p f b hq]
      exact hinv
    · cases b with
      | false =>
        rw [schedule_post_book_failed s p f hq]
        intro kv hkv
        rcases mem_insertKey _ _ _ kv hkv with he | hm
        · subst he; exact hp
        · exact hinv kv hm
      | true =>
        rw [schedule_post_success s p f hq]
        intro kv hkv
        rcases mem_insertKey _ _ _ kv hkv with he | hm
        · subst he; exact hp
        · rcases mem_insertKey _ _ _ kv hm with he2 | hm2
          · subst he2; exact hp
          · exact hinv kv hm2

set_option maxRecDepth 4096 in
/-- C9 witness: the 281-character content is rejected, a short content
passes unchanged, and admitting a validated post into the empty registry
keeps every stored content within the bound. -/
theorem overlong_content_never_reaches_registry_witness :
    validate_content_length longContent =
      Except.error "Content exceeds 280 characters" ∧
    validate_content_length "ok" = Except.ok "ok" ∧
    (∀ kv ∈ (schedule_post emptyState freshPost "u1" true).1.posts,
      kv.2.content.length ≤ 280) :=
  ⟨(overlong_content_never_reaches_registry longContent emptyState freshPost
      "u1" true (by decide) (by decide)).1 (by decide),
   (overlong_content_never_reaches_registry "ok" emptyState freshPost
      "u1" true (by decide) (by decide)).2.1 (by decide),
   (overlong_content_never_reaches_registry "ok" emptyState freshPost
      "u1" true (by decide) (by decide)).2.2⟩

theorem lookupKey_cons {κ α : Type} [DecidableEq κ] (k k' : κ) (v : α)
    (l : List (κ × α)) :
    lookupKey k ((k', v) :: l) = if k' = k then some v else lookupKey k l :=
  rfl

theorem keyCount_cons {κ α : Type} [DecidableEq κ] (k k' : κ) (v : α)
    (l : List (κ × α)) :
    keyCount k ((k', v) :: l) = (if k' = k then 1 else 0) + keyCount k l :=
  rfl

theorem lookupKey_removeKey_append (jid : String) (l rest : JobStore) :
    lookupKey jid (removeKey jid l ++ rest) = lookupKey jid rest := by
  induction l with
  | nil => rfl
  | cons hd tl ih =>
    obtain ⟨k', v⟩ := hd
    unfold removeKey
    by_cases hk : k' = jid
    · rw [if_pos hk]
      exact ih
    · rw [if_neg hk, List.cons_append, lookupKey_cons, if_neg hk]
      exact ih

theorem keyCount_removeKey_append (jid : String) (l rest : JobStore) :
    keyCount jid (removeKey jid l ++ rest) = keyCount jid rest := by
  induction l with
  | nil => rfl
  | cons hd tl ih =>
    obtain ⟨k', v⟩ := hd
    unfold removeKey
    by_cases hk : k' = jid
    · rw [if_pos hk]
      exact ih
    · rw [if_neg hk, List.cons_append, keyCount_cons, if_neg hk, ih,
        Nat.zero_add]

theorem lookupKey_addJob (jobs : JobStore) (jid : String) (d : Int) :
    lookupKey jid (addJob jobs jid d) = some d := by
  unfold addJob
  rw [lookupKey_removeKey_append]
  simp [lookupKey]

theorem keyCount_addJob (jobs : JobStore) (jid : String) (d : Int) :
    keyCount jid (addJob jobs jid d) = 1 := by
  unfold addJob
  rw [keyCount_removeKey_append]
  simp [keyCount]

/-- C10: booking a trigger via a successful `schedule_post` leaves exactly
one pending trigger for the post's job id, carrying that call's fire
time; re-scheduling the same identifier (second successful call) replaces
it — afterwards the job store maps the id to the new fire time only, and
still holds exactly one trigger for it. -/
theorem reschedule_replaces_trigger (s : SchedulerState) (p₁ p₂ : XPost)
    (f₁ f₂ : String)
    (h₁ : ¬ s.monthly_post_count ≥ s.max_monthly_posts)
    (hsame : effectiveId p₂ f₂ = effectiveId p₁ f₁)
    (h₂ : ¬ (schedule_post s p₁ f₁ true).1.monthly_post_count ≥
        (schedule_post s p₁ f₁ true).1.max_monthly_posts) :
    (schedule_post s p₁ f₁ true).2 = true ∧
    lookupKey ("post_" ++ effectiveId p₁ f₁) (schedule_post s p₁ f₁ true).1.jobs =
      some p₁.scheduled_date ∧
    keyCount ("post_" ++ effectiveId p₁ f₁) (schedule_post s p₁ f₁ true).1.jobs = 1 ∧
    (schedule_post (schedule_post s p₁ f₁ true).1 p₂ f₂ true).2 = true ∧
    lookupKey ("post_" ++ effectiveId p₁ f₁)
      (schedule_post (schedule_post s p₁ f₁ true).1 p₂ f₂ true).1.jobs =
      some p₂.scheduled_date ∧
    keyCount ("post_" ++ effectiveId p₁ f₁)
      (schedule_post (schedule_post s p₁ f₁ true).1 p₂ f₂ true).1.jobs = 1 := by
  have e₁ := schedule_post_success s p₁ f₁ h₁
  have e₂ := schedule_post_success (schedule_post s p₁ f₁ true).1 p₂ f₂ h₂
  refine ⟨by rw [e₁], ?_, ?_, by rw [e₂], ?_, ?_⟩
  · rw [e₁]
    exact lookupKey_addJob s.jobs _ _
  · rw [e₁]
    exact keyCount_addJob s.jobs _ _
  · rw [e₂]
    dsimp only
    rw [hsame]
    exact lookupKey_addJob _ _ _
  · rw [e₂]
    dsimp only
    rw [hsame]
    exact keyCount_addJob _ _ _

/-- C10 witness: scheduling identifier "a" at time 10 and re-scheduling
it at time 20 leaves exactly one pending trigger for job "post_a",
carrying fire time 20. -/
theorem reschedule_replaces_trigger_witness :
    (schedule_post emptyState reschedPost1 "u1" true).2 = true ∧
    lookupKey ("post_" ++ effectiveId reschedPost1 "u1")
      (schedule_post emptyState reschedPost1 "u1" true).1.jobs = some 10 ∧
    keyCount ("post_" ++ effectiveId reschedPost1 "u1")
      (schedule_post emptyState reschedPost1 "u1" true).1.jobs = 1 ∧
    (schedule_post (schedule_post emptyState reschedPost1 "u1" true).1
      reschedPost2 "u2" true).2 = true ∧
    lookupKey ("post_" ++ effectiveId reschedPost1 "u1")
      (schedule_post (schedule_post emptyState reschedPost1 "u1" true).1
        reschedPost2 "u2" true).1.jobs = some 20 ∧
    keyCount ("post_" ++ effectiveId reschedPost1 "u1")
      (schedule_post (schedule_post emptyState reschedPost1 "u1" true).1
        reschedPost2 "u2" true).1.jobs = 1 :=
  reschedule_replaces_trigger emptyState reschedPost1 reschedPost2 "u1" "u2"
    (by decide) (by decide) (by decide)

/-- C2 counterexample: with an empty registry, ample quota and a failing
trigger booking, `schedule_post` and `schedule_thread` return false and
yet leave the entity stored in the registry — partial state remains, so
"the registry … left unchanged … the entity is not registered at all"
fails for the booking-failure cause. -/
theorem schedule_failure_leaves_partial_state :
    (schedule_post emptyState freshPost "p1" false).2 = false ∧
    (schedule_post emptyState freshPost "p1" false).1.posts ≠ emptyState.posts ∧
    (schedule_thread emptyState outOfOrderThread false).2 = false ∧
    (schedule_thread emptyState outOfOrderThread false).1.threads ≠
      emptyState.threads := by
  decide

/-- C2 (amended): when admission is refused for quota (or an empty
member list), registry, job store and counter are all unchanged; when
trigger booking fails, the call still returns false and the counter and
job store are unchanged, but the entity remains stored in the registry
with its status not updated. -/
theorem schedule_failure_effects (s : SchedulerState) (p : XPost)
    (t : XThread) (f : String) :
    (∀ b, s.monthly_post_count ≥ s.max_monthly_posts →
      schedule_post s p f b = (s, false)) ∧
    ((schedule_post s p f false).2 = false ∧
      (schedule_post s p f false).1.monthly_post_count = s.monthly_post_count ∧
      (schedule_post s p f false).1.jobs = s.jobs ∧
      (¬ s.monthly_post_count ≥ s.max_monthly_posts →
        (schedule_post s p f false).1.posts =
          insertKey (effectiveId p f) (withId p (effectiveId p f)) s.posts ∧
        (withId p (effectiveId p f)).status = p.status)) ∧
    (∀ b, t.posts.isEmpty = true → schedule_thread s t b = (s, false)) ∧
    (∀ b, t.posts.isEmpty = false →
      s.monthly_post_count + ↑t.posts.length > s.max_monthly_posts →
      schedule_thread s t b = (s, false)) ∧
    ((schedule_thread s t false).2 = false ∧
      (schedule_thread s t false).1.monthly_post_count = s.monthly_post_count ∧
      (schedule_thread s t false).1.jobs = s.jobs ∧
      (t.posts.isEmpty = false →
        ¬ s.monthly_post_count + ↑t.posts.length > s.max_monthly_posts →
        (schedule_thread s t false).1.threads = insertKey t.id t s.threads)) := by
  refine ⟨?_, ?_, ?_, ?_, ?_⟩
  · intro b hq
    exact schedule_post_quota_refused s p f b hq
  · by_cases hq : s.monthly_post_count ≥ s.max_monthly_posts
    · rw [schedule_post_quota_refused s p f false hq]
      exact ⟨rfl, rfl, rfl, fun hc => absurd hq hc⟩
    · rw [schedule_post_book_failed s p f hq]
      exact ⟨rfl, rfl, rfl, fun _ => ⟨rfl, rfl⟩⟩
  · intro b he
    exact schedule_thread_empty_refused s t b he
  · intro b he hq
    exact schedule_thread_quota_refused s t b he hq
  · cases he : t.posts.isEmpty with
    | true =>
      rw [schedule_thread_empty_refused s t false he]
      exact ⟨rfl, rfl, rfl, fun he2 _ => Bool.noConfusion he2⟩
    | false =>
      by_cases hq : s.monthly_post_count + ↑t.posts.length > s.max_monthly_posts
      · rw [schedule_thread_quota_refused s t false he hq]
        exact ⟨rfl, rfl, rfl, fun _ hq2 => absurd hq hq2⟩
      · rw [schedule_thread_book_failed s t he hq]
        exact ⟨rfl, rfl, rfl, fun _ _ => rfl⟩

/-- C2 witness: on the empty state with a failing booking, the counter is
unchanged and the refused post and thread remain stored in the registry
with their statuses untouched. -/
theorem schedule_failure_effects_witness :
    (schedule_post emptyState freshPost "p1" false).1.monthly_post_count =
      emptyState.monthly_post_count ∧
    (schedule_post emptyState freshPost "p1" false).1.posts =
      insertKey (effectiveId freshPost "p1")
        (withId freshPost (effectiveId freshPost "p1")) emptyState.posts ∧
    (schedule_thread emptyState outOfOrderThread false).1.threads =
      insertKey outOfOrderThread.id outOfOrderThread emptyState.threads :=
  ⟨(schedule_failure_effects emptyState freshPost outOfOrderThread "p1").2.1.2.1,
   ((schedule_failure_effects emptyState freshPost outOfOrderThread "p1").2.1.2.2.2
      (by decide)).1,
   (schedule_failure_effects emptyState freshPost outOfOrderThread "p1").2.2.2.2.2.2.2
      (by decide) (by decide)⟩

/-- C1 (code-bug evaluation): on a state holding a SCHEDULED post and a
SCHEDULED thread with pending triggers, the cancel operations do not
perform the claimed transition: `PostStatus.CANCELLED` does not exist,
the cancels return false, the statuses stay SCHEDULED and the counter is
not decremented — while the pending triggers have already been removed. -/
theorem cancel_scheduled_entity_never_succeeds :
    fixPost.status = PostStatus.scheduled ∧
    fixThread.status = PostStatus.scheduled ∧
    PostStatus.lookup "CANCELLED" = none ∧
    cancel_post fixState "p1" = ({ fixState with jobs := [("thread_t1", 4)] }, false) ∧
    cancel_thread fixState "t1" = ({ fixState with jobs := [("post_p1", 3)] }, false) ∧
    (cancel_post fixState "p1").1.monthly_post_count = fixState.monthly_post_count ∧
    (cancel_thread fixState "t1").1.monthly_post_count = fixState.monthly_post_count := by
  decide

/-- C3 witness: one admission into the empty state keeps the counter
within the ceiling. -/
theorem quota_ceiling_invariant_witness :
    (schedule_post emptyState freshPost "u1" true).1.monthly_post_count ≤
      (schedule_post emptyState freshPost "u1" true).1.max_monthly_posts :=
  ((quota_ceiling_invariant emptyState (by decide)).1 freshPost "u1" true).2.1
